import Mathlib

/-!
Verification development for the `chain-of-geths` monitoring exporter
(`monitoring/exporter/app.py`).

The exporter's per-round logic is shallowly embedded below:

* Python runtime values that flow through the sampler are modelled by `PyVal`;
  exceptions (`TypeError`, `ValueError`) by `PyErr` via `Except`.
* Machine strings are modelled as `List Char` at the parsing level; helper
  functions mirror CPython's `str.strip`, `str.lower`, `int(...)`,
  `float(...)` (restricted to the grammar fragments the exporter can feed
  them) exactly on ASCII input, which is the alphabet of every value the
  exporter handles.
* The regexes compiled by `_parse_prom_number` are embedded as deterministic
  line matchers that follow the leftmost/greedy-with-backtracking semantics
  of `re` for these particular patterns (analysed case by case: every
  quantifier boundary in them is forced except the single optional group,
  which is tried first and then skipped, exactly as `re` does).
* File-system inputs (marker files, progress JSON files, bounded log tails)
  are modelled at the boundary the program reads them: markers as Booleans,
  the nominal output files as optional byte sizes, progress JSON as the
  shape `_read_json_file` can yield, and each log tail as the tuple of
  values the round's fixed regex scans extract from it.

Floats are modelled as rationals; every float the claims mention is produced
by exact arithmetic on small integers, where IEEE double arithmetic agrees
with `ℚ`.
-/

namespace ExporterModel

/-- Python exception classes raised by the numeric coercion paths. -/
inductive PyErr where
  | typeError
  | valueError
  deriving DecidableEq, Repr

/-- Python runtime values reaching `hex_to_int` / JSON field reads:
`None`, `int` (with `bool` kept distinct because `isinstance(b, int)` is
true for `bool`), `str`, `float`, and a catch-all for every other type
(list, dict, ...), none of which is `int`-like or `str`-like. -/
inductive PyVal where
  | pyNone
  | pyInt (n : Int)
  | pyBool (b : Bool)
  | pyStr (s : String)
  | pyFloat (q : ℚ)
  | pyOther
  deriving DecidableEq, Repr

/-! ### ASCII character helpers (CPython `str.strip` / `str.lower`) -/

/-- Characters removed by Python's default `str.strip`: space and `\t`, `\n`,
`\v`, `\f`, `\r` (codepoints 9–13 and 32). -/
def isWsC (c : Char) : Bool := c.toNat = 32 ∨ (9 ≤ c.toNat ∧ c.toNat ≤ 13)

/-- `str.lower` on ASCII: map `A`–`Z` to `a`–`z`. -/
def lowerC (c : Char) : Char :=
  if 65 ≤ c.toNat ∧ c.toNat ≤ 90 then Char.ofNat (c.toNat + 32) else c

/-- ASCII decimal digit. -/
def isDigitC (c : Char) : Bool := 48 ≤ c.toNat ∧ c.toNat ≤ 57

/-- Lower-case hexadecimal digit (`0`–`9`, `a`–`f`). -/
def isHexLowC (c : Char) : Bool := isDigitC c ∨ (97 ≤ c.toNat ∧ c.toNat ≤ 102)

/-- Numeric value of a (lower-case) hexadecimal digit. -/
def digitValC (c : Char) : Nat :=
  if isDigitC c then c.toNat - 48 else c.toNat - 87

/-- Python `str.strip()`: drop leading and trailing whitespace. -/
def trimChars (l : List Char) : List Char :=
  ((l.dropWhile isWsC).reverse.dropWhile isWsC).reverse

/-- Value of a decimal digit string. -/
def decValChars (l : List Char) : Int :=
  l.foldl (fun a c => 10 * a + (digitValC c : Int)) 0

/-- Value of a (lower-case) hexadecimal digit string. -/
def hexValChars (l : List Char) : Int :=
  l.foldl (fun a c => 16 * a + (digitValC c : Int)) 0

/-- CPython `int(s)` on an unsigned body: nonempty all-digits.
(PEP 515 underscore grouping is not modelled; no exporter value uses it.) -/
def parseDigits (l : List Char) : Option Int :=
  if l ≠ [] ∧ l.all isDigitC then some (decValChars l) else none

/-- CPython `int(s, 16)` body after the `0x` prefix: nonempty hex digits. -/
def parseHexPart (l : List Char) : Option Int :=
  if l ≠ [] ∧ l.all isHexLowC then some (hexValChars l) else none

/-- CPython `int(s)` for base 10: optional sign, then digits. -/
def pyIntOfDecStr (l : List Char) : Option Int :=
  match l with
  | '-' :: r => (parseDigits r).map Int.neg
  | '+' :: r => parseDigits r
  | _ => parseDigits l

/-- The string branch of `hex_to_int`: `v = value.strip().lower()`, then
`int(v, 16)` when `v.startswith("0x")` else `int(v)`; a parse failure is
CPython's `ValueError`. -/
def hexToIntStr (s : String) : Except PyErr Int :=
  let v := (trimChars s.toList).map lowerC
  if v.take 2 = ['0', 'x'] then
    match parseHexPart (v.drop 2) with
    | some n => .ok n
    | none => .error .valueError
  else
    match pyIntOfDecStr v with
    | some n => .ok n
    | none => .error .valueError

/-- `hex_to_int` (app.py lines 160–170): `None → 0`; `int` (including
`bool`, an `int` subclass) returned as-is; `str` parsed as hex when
`0x`-prefixed else as decimal; every other type raises `TypeError`. -/
def hex_to_int : PyVal → Except PyErr Int
  | .pyNone => .ok 0
  | .pyInt n => .ok n
  | .pyBool b => .ok (if b then 1 else 0)
  | .pyStr s => hexToIntStr s
  | .pyFloat _ => .error .typeError
  | .pyOther => .error .typeError

deriving instance DecidableEq for Except

/-! ### `_parse_prom_number` (app.py lines 105–138)

The source compiles its patterns from the raw f-string
`rf"^{re.escape(metric)}\\{{([^}}]*)\\}}\\s+([-+]?\\d+(?:\\.\\d+)?)\\s*$"`.
Because the literal is raw, each `\\` stays two backslash characters, and the
f-string turns `{{`/`}}` into single braces, so the compiled pattern is
`^METRIC` `\\` `LB` `([^RB]*)` `\\` `RB` `\\s+([-+]?\\d+(?:\\.\\d+)?)\\s*$`
(`LB`/`RB` are the brace characters).  The regex engine reads each `\\` as an
escaped backslash matching one literal `\`, after which `s`, `d` and `.`
are ordinary characters — the pattern demands literal backslashes and literal
runs of `s`/`d` in the scraped text.  The matchers below implement exactly
those compiled patterns (anchored per line under `re.MULTILINE`); every
quantifier boundary in them is forced except the optional
`(?:\\.\\d+)?` group, which is tried first and then dropped, as `re` does. -/

/-- The `{` character (written by codepoint). -/
def lbChar : Char := Char.ofNat 123

/-- The `}` character (written by codepoint). -/
def rbChar : Char := Char.ofNat 125

/-- Split a character stream into lines at `\n` (the `re.MULTILINE`
`^`/`$` structure of the scan). -/
def splitNl : List Char → List (List Char)
  | [] => [[]]
  | c :: r =>
    if c = '\n' then [] :: splitNl r
    else
      match splitNl r with
      | l :: ls => (c :: l) :: ls
      | [] => [[c]]

/-- Does `pre` occur at the head of `l`? -/
def hasPrefixC : List Char → List Char → Bool
  | [], _ => true
  | _ :: _, [] => false
  | p :: ps, c :: cs => p = c ∧ hasPrefixC ps cs

/-- Remove `pre` from the head of `l`, or fail. -/
def dropPrefixC : List Char → List Char → Option (List Char)
  | [], l => some l
  | _ :: _, [] => none
  | p :: ps, c :: cs => if p = c then dropPrefixC ps cs else none

/-- Auxiliary scan for substring containment. -/
def containsAux (needle : List Char) : List Char → Bool
  | [] => hasPrefixC needle []
  | c :: t => hasPrefixC needle (c :: t) ∨ containsAux needle t

/-- Python's `needle in hay` on strings (substring containment). -/
def containsC (hay needle : List Char) : Bool :=
  needle = [] ∨ containsAux needle hay

/-- Match the compiled tail `\\s*$`: one literal backslash, then a run of
`s` characters, then end of line. -/
def sEndTail (cs : List Char) : Bool :=
  match cs with
  | '\\' :: r => r.all (· = 's')
  | _ => false

/-- Match the compiled optional group `(?:\\.\\d+)` followed by `\\s*$`:
a literal backslash, any character, a literal backslash, a nonempty run of
`d`, then the end tail.  Returns the characters the group captured. -/
def matchNumOpt (cs : List Char) : Option (List Char) :=
  match cs with
  | '\\' :: x :: '\\' :: cs4 =>
    let ds2 := cs4.takeWhile (· = 'd')
    if ds2 = [] then none
    else if sEndTail (cs4.dropWhile (· = 'd')) then some ('\\' :: x :: '\\' :: ds2)
    else none
  | _ => none

/-- Match the compiled group body `\\d+(?:\\.\\d+)?` followed by `\\s*$`
(after any sign): literal backslash, nonempty `d` run, then the optional
group or directly the end tail.  Returns the capture minus its leading
backslash (re-attached by `matchNum`). -/
def matchNumCore (cs : List Char) : Option (List Char) :=
  match cs with
  | '\\' :: cs2 =>
    let ds := cs2.takeWhile (· = 'd')
    if ds = [] then none
    else
      match matchNumOpt (cs2.dropWhile (· = 'd')) with
      | some opt => some (ds ++ opt)
      | none =>
        if sEndTail (cs2.dropWhile (· = 'd')) then some ds else none
  | _ => none

/-- Match the numeric capture group `([-+]?\\d+(?:\\.\\d+)?)` followed by
`\\s*$`, returning the captured characters (optional sign, the literal
backslash matched by `\\`, then the `d` run and optional-group text). -/
def matchNum (cs : List Char) : Option (List Char) :=
  match cs with
  | '-' :: r => (matchNumCore r).map (fun g => '-' :: '\\' :: g)
  | '+' :: r => (matchNumCore r).map (fun g => '+' :: '\\' :: g)
  | _ => (matchNumCore cs).map (fun g => '\\' :: g)

/-- Match `\\s+` (literal backslash then a nonempty `s` run) and then the
numeric group. -/
def matchSpacesThenNum (cs : List Char) : Option (List Char) :=
  match cs with
  | '\\' :: r =>
    let sr := r.takeWhile (· = 's')
    if sr = [] then none else matchNum (r.dropWhile (· = 's'))
  | _ => none

/-- Full-line match of the compiled labeled pattern.  After the literal
metric name the pattern requires `\`, `{`, then `([^}]*)` whose greedy run
must end in the literal `\` demanded by `\\}` (the run cannot cross the
first `}`, so backtracking forces exactly this decomposition), then `}` and
the spaces/number tail.  Returns (label capture, numeric capture). -/
def matchLabeledLine (metric line : List Char) : Option (List Char × List Char) :=
  match dropPrefixC metric line with
  | none => none
  | some r1 =>
    match r1 with
    | '\\' :: c :: r2 =>
      if c = lbChar then
        let a := r2.takeWhile (· ≠ rbChar)
        if a.getLast? = some '\\' then
          match r2.dropWhile (· ≠ rbChar) with
          | _ :: r3 => (matchSpacesThenNum r3).map (fun g => (a.dropLast, g))
          | [] => none
        else none
      else none
    | _ => none

/-- Full-line match of the compiled unlabeled pattern
`^METRIC\\s+([-+]?\\d+(?:\\.\\d+)?)\\s*$`. -/
def matchPlainLine (metric line : List Char) : Option (List Char) :=
  (dropPrefixC metric line).bind matchSpacesThenNum

/-- The `finditer` loop over labeled matches: first match whose label
capture passes the selector-substring filter wins (a selector miss
`continue`s, anything else returns). -/
def findLabeled (metric sel : List Char) : List (List Char) → Option (List Char × List Char)
  | [] => none
  | l :: ls =>
    match matchLabeledLine metric l with
    | some (a, g) =>
      if sel ≠ [] ∧ ¬ containsC a sel then findLabeled metric sel ls else some (a, g)
    | none => findLabeled metric sel ls

/-- The `pat_plain.search` over the text: first line matching the
unlabeled pattern. -/
def findPlain (metric : List Char) : List (List Char) → Option (List Char)
  | [] => none
  | l :: ls =>
    match matchPlainLine metric l with
    | some g => some g
    | none => findPlain metric ls

/-- CPython `float(s)` restricted to `[sign] digits [ "." digits ]` with at
least one digit; anything else (in particular any string containing a
backslash) raises `ValueError`, modelled as `none`.  (Exponents, `inf`,
`nan` and underscore grouping are never produced by the call sites.) -/
def pyFloatUnsigned (cs : List Char) : Option ℚ :=
  let ip := cs.takeWhile isDigitC
  match cs.dropWhile isDigitC with
  | [] => if ip = [] then none else some ((decValChars ip : ℚ))
  | c :: fr =>
    if c = '.' ∧ fr.all isDigitC ∧ (ip ≠ [] ∨ fr ≠ []) then
      some ((decValChars ip : ℚ) + (decValChars fr : ℚ) / (10 : ℚ) ^ fr.length)
    else none

/-- CPython `float(s)` with optional sign (restricted as above). -/
def pyFloatChars (cs : List Char) : Option ℚ :=
  match cs with
  | '-' :: r => (pyFloatUnsigned r).map (fun q => -q)
  | '+' :: r => pyFloatUnsigned r
  | _ => pyFloatUnsigned cs

/-- `_parse_prom_number(text, metric, label_selector)` (app.py 105–138):
scan labeled matches first (selector as raw substring of the label
capture), falling back to the unlabeled pattern only when caller passed no
selector; a `float(...)` failure returns `None`. -/
def _parse_prom_number (text metric label_selector : String) : Option ℚ :=
  let lines := splitNl text.toList
  match findLabeled metric.toList label_selector.toList lines with
  | some (_, g) => pyFloatChars g
  | none =>
    if label_selector.toList = [] then
      match findPlain metric.toList lines with
      | some g => pyFloatChars g
      | none => none
    else none

/-! ### Per-node sampler (app.py lines 411–537)

One iteration of `for idx, (name, url) in enumerate(self.nodes, ...)`.
RPC results arrive through `rpc_call_optional`, which maps any transport or
protocol failure to Python `None`. -/

/-- Python `name.strip()` as a character list. -/
def pyStrip (s : String) : List Char := trimChars s.toList

/-- `GETH_V1_0_3_TARGET_BLOCK = 1_149_999` (app.py line 178). -/
def GETH_V1_0_3_TARGET_BLOCK : Int := 1149999

/-- Result of `rpc_call_optional(url, "eth_syncing")`. -/
inductive SyncRes where
  /-- The call failed, or the client returned JSON `null` (both arrive as
  Python `None`). -/
  | rpcNone
  /-- The not-syncing sentinel `False`. -/
  | rpcFalse
  /-- A dict; the payloads are what `.get("currentBlock")` /
  `.get("highestBlock")` yield (`pyNone` when the key is absent). -/
  | dict (cur hi : PyVal)
  /-- Any other value (e.g. the boolean `True`): `.get` raises
  `AttributeError`, caught by the per-node `except`. -/
  | nonDict
  deriving DecidableEq, Repr

/-- The three probes issued for one node in one round. -/
structure NodeRpc where
  /-- `eth_blockNumber` result; `none` when the call failed or returned
  `null` (the code raises on `block_hex is None`). -/
  blockNumber : Option PyVal
  /-- `net_peerCount` result (`none` becomes Python `None`, which
  `hex_to_int` maps to 0). -/
  peerCount : Option PyVal
  /-- `eth_syncing` result. -/
  syncing : SyncRes
  deriving DecidableEq, Repr

/-- Collapse an optional RPC value to the Python value handed on. -/
def optVal : Option PyVal → PyVal
  | none => .pyNone
  | some v => v

/-- The string set as the `progress` label of `geth_sync_progress_info`,
kept structured (the numeric case records the exact numbers; the decimal
rendering of `pct` is presentation only). -/
inductive ProgressLabel where
  /-- `f"{cur}/{target} ({pct:.1f}%)"`. -/
  | fmt (cur target : Int) (pct : ℚ)
  /-- `"0/0 (0.0%)"`. -/
  | zeroZero
  /-- `"down"`. -/
  | down
  /-- `"gated (waiting for seed)"`. -/
  | gated
  deriving DecidableEq, Repr

/-- Gauge writes and bookkeeping for one node in one round.  `block` /
`peers` are `none` when the round leaves `g_block` / `g_peers` untouched
(the down path overwrites every other series but not these two). -/
structure Sample where
  up : Bool
  block : Option Int
  peers : Option Int
  syncingFlag : Bool
  syncCur : Int
  syncHi : Int
  remaining : Int
  effHead : Int
  target : Int
  pct : ℚ
  label : ProgressLabel
  deriving DecidableEq, Repr

/-- The round-level context the sampler consults: the cutoff height and the
two marker files read inside the node loop. -/
structure SampleEnv where
  cutoff : Nat
  /-- `export_done_path.exists()` (`seed-v1.16.7-export-{cutoff}.done`). -/
  exportDoneExists : Bool
  /-- `seed_done_path.exists()` (`seed-v1.11.6-{cutoff}.done`). -/
  seedDoneExists : Bool
  deriving DecidableEq, Repr

/-- Fixed-target resolution (app.py lines 439–457). -/
def fixedTarget (env : SampleEnv) (name : String) : Option Int :=
  if pyStrip name = "Geth v1.0.3".toList then some GETH_V1_0_3_TARGET_BLOCK
  else if pyStrip name = "Geth v1.16.7".toList then
    (if env.exportDoneExists then none else some (env.cutoff : Int))
  else if pyStrip name = "Geth v1.9.25".toList then some (env.cutoff : Int)
  else if pyStrip name = "Geth v1.3.6".toList then some (env.cutoff : Int)
  else none

/-- The `except` path (app.py lines 523–537): every progress series is
zeroed with label `"down"`; `g_block` and `g_peers` are not rewritten.
`b`/`p` record what those two gauges were already set to earlier in the
`try` (when the failure happened after line 473). -/
def failSample (b p : Option Int) : Sample :=
  { up := false, block := b, peers := p, syncingFlag := false, syncCur := 0, syncHi := 0,
    remaining := 0, effHead := 0, target := 0, pct := 0, label := .down }

/-- The v1.11.6 gating path (app.py lines 419–435). -/
def gatedSample : Sample :=
  { up := false, block := some 0, peers := some 0, syncingFlag := false, syncCur := 0,
    syncHi := 0, remaining := 0, effHead := 0, target := 0, pct := 0, label := .gated }

/-- The not-syncing path (app.py lines 479–494): `syncing` was `None` or
`False`. -/
def notSyncingSample (ft : Option Int) (blockNum peerCount : Int) : Sample :=
  let target := ft.getD blockNum
  let pct : ℚ := if 0 < target then (blockNum : ℚ) * 100 / (target : ℚ) else 0
  { up := true, block := some blockNum, peers := some peerCount, syncingFlag := false,
    syncCur := 0, syncHi := 0, remaining := max 0 (target - blockNum), effHead := blockNum,
    target := target, pct := pct,
    label := if 0 < target then .fmt blockNum target pct else .zeroZero }

/-- The structured-syncing path (app.py lines 495–521). -/
def syncingSample (env : SampleEnv) (name : String) (ft : Option Int)
    (blockNum peerCount cur hi : Int) : Sample :=
  let eff :=
    if pyStrip name = "Geth v1.16.7".toList ∧ ft = some (env.cutoff : Int) then blockNum
    else max blockNum cur
  let target := ft.getD (max hi eff)
  let pct : ℚ := if 0 < target then (eff : ℚ) * 100 / (target : ℚ) else 0
  { up := true, block := some blockNum, peers := some peerCount, syncingFlag := true,
    syncCur := cur, syncHi := hi, remaining := max 0 (target - eff), effHead := eff,
    target := target, pct := pct, label := .fmt eff target pct }

/-- One node's iteration of the sampling loop (app.py lines 411–537):
v1.11.6 gating, fixed-target resolution, the `try` block with its required
`eth_blockNumber` probe and numeric coercions, and the `except` fallback.
Coercion failures before line 471 leave `g_block`/`g_peers` unwritten;
failures inside the `eth_syncing` handling happen after both were set. -/
def sampleNode (env : SampleEnv) (name : String) (rpc : NodeRpc) : Sample :=
  if pyStrip name = "Geth v1.11.6".toList ∧ env.seedDoneExists = false then gatedSample
  else
    match rpc.blockNumber with
    | none => failSample none none
    | some bv =>
      match hex_to_int bv with
      | .error _ => failSample none none
      | .ok blockNum =>
        match hex_to_int (optVal rpc.peerCount) with
        | .error _ => failSample none none
        | .ok peerCount =>
          match rpc.syncing with
          | .rpcNone => notSyncingSample (fixedTarget env name) blockNum peerCount
          | .rpcFalse => notSyncingSample (fixedTarget env name) blockNum peerCount
          | .dict cv hv =>
            match hex_to_int cv with
            | .error _ => failSample (some blockNum) (some peerCount)
            | .ok cur =>
              match hex_to_int hv with
              | .error _ => failSample (some blockNum) (some peerCount)
              | .ok hi => syncingSample env name (fixedTarget env name) blockNum peerCount cur hi
          | .nonDict => failSample (some blockNum) (some peerCount)

/-! ### External state (app.py lines 99–103, 280–312, 549–575)

File-system inputs are modelled at the boundary the round reads them:
marker files as existence Booleans, nominal output files as optional byte
sizes (`none` = absent), progress files as the JSON shape
`_read_json_file` can produce, and each log file as the tuple of values
the round's fixed regex scans extract from its bounded tail (`none` for a
pattern with no occurrence; a read that raises degrades to the same
values the code's `except` arms produce). -/

/-- What `_read_json_file` yields for a progress file that exists:
a non-dict value, a dict whose `last_done` is absent or `null` (both fail
the `is not None` check identically), or a dict with a non-null
`last_done`.  An unreadable file returns `None`, collapsed into the
`Option` at the use site. -/
inductive ProgressJson where
  | notDict
  | dictNoLast
  | dictLast (v : PyVal)
  deriving DecidableEq, Repr

/-- Truncation toward zero (CPython `int(float)`). -/
def truncQ (q : ℚ) : Int := if 0 ≤ q then ⌊q⌋ else -⌊-q⌋

/-- CPython `int(x)` under a broad `except` (any failure → `None`). -/
def pyIntV : PyVal → Option Int
  | .pyInt n => some n
  | .pyBool b => some (if b then 1 else 0)
  | .pyStr s => pyIntOfDecStr (trimChars s.toList)
  | .pyFloat q => some (truncQ q)
  | .pyNone => none
  | .pyOther => none

/-- The `last_done` extraction pattern (app.py 633–640, 750–757, 876–882):
`isinstance(data, dict) and data.get("last_done") is not None`, then
`int(...)` under `except`. -/
def readLastDone : Option ProgressJson → Option Int
  | none => none
  | some .notDict => none
  | some .dictNoLast => none
  | some (.dictLast v) => if v = .pyNone then none else pyIntV v

/-- Values the round's regex scans extract from one log file's bounded
tail.  Each field is `none`/`false` when the pattern has no occurrence in
the tail (or the read raised). -/
structure LogView where
  /-- `"Importing blockchain" in tail or "Imported new chain segment" in tail`. -/
  importingPhrase : Bool
  /-- Last `Imported new chain segment\s+number=([0-9,]+)` (de-grouped). -/
  segNumber : Option Nat
  /-- Last `Imported new chain segment\s+.*?number=([0-9,]+)` (de-grouped). -/
  segNumberLoose : Option Nat
  /-- Last `imported\s+[0-9,]+\s+block\(s\).*?#([0-9,]+)` (ignorecase). -/
  oldImportNumber : Option Nat
  /-- Last `Exporting blocks\s+exported=([0-9,]+)` (de-grouped). -/
  exportedNumber : Option Nat
  deriving DecidableEq, Repr

/-- The file-system snapshot one round observes (paths precomputed at
app.py lines 280–312).  `Option LogView` / `Option ProgressJson` /
`Option Nat` are `none` exactly when `path.exists()` is false. -/
structure Fs where
  /-- `exports/mainnet-0-{cutoff}.rlp.progress`. -/
  exportProgress : Option ProgressJson
  /-- `exports/mainnet-0-{cutoff}.rlp` (size in bytes; the round never
  reads it — kept as part of the disk snapshot). -/
  exportFile : Option Nat
  /-- `exports/mainnet-0-{cutoff}.rlp.exporting`. -/
  exportMarker : Bool
  /-- `seed-v1.16.7-export-{cutoff}.done`. -/
  exportDone : Bool
  /-- `seed-v1.11.6.log`. -/
  seedLog : Option LogView
  /-- `seed-v1.11.6-{cutoff}.done`. -/
  seedDone : Bool
  /-- `seed-v1.11.6-import-{cutoff}.importing`. -/
  importMarker : Bool
  /-- `exports/mainnet-0-{cutoff}-from-v1.9.25.rlp` (size in bytes). -/
  v136ExportFile : Option Nat
  /-- `exports/mainnet-0-{cutoff}-from-v1.9.25.rlp.progress`. -/
  v136ExportProgress : Option ProgressJson
  /-- `exports/mainnet-0-{cutoff}-from-v1.9.25.rlp.exporting`. -/
  v136ExportMarker : Bool
  /-- `seed-v1.3.6-export-{cutoff}.done`. -/
  v136ExportDone : Bool
  /-- `seed-v1.3.6-import-{cutoff}.importing`. -/
  v136ImportMarker : Bool
  /-- `seed-v1.3.6-import.log`. -/
  v136ImportLog : Option LogView
  /-- `seed-v1.3.6-from-v1.9.25-{cutoff}.done`. -/
  v136SeedDone : Bool
  /-- `seed-v1.9.25-import.log`. -/
  v925ImportLog : Option LogView
  /-- `seed-v1.9.25-import-{cutoff}.done`. -/
  v925ImportDone : Bool
  /-- `exports/mainnet-0-{cutoff}-from-v1.10.0.rlp` (size in bytes). -/
  v110ExportFile : Option Nat
  /-- `exports/mainnet-0-{cutoff}-from-v1.10.0.rlp.exporting`. -/
  v110ExportMarker : Bool
  /-- `seed-v1.10.0-export.log`. -/
  v110ExportLog : Option LogView
  /-- `seed-v1.10.0-export-{cutoff}.done`. -/
  v110ExportDone : Bool
  deriving DecidableEq, Repr

/-! ### Round inputs, poller state and the stage derivation engine -/

/-- Startup configuration the round consults. -/
structure Cfg where
  /-- Display names from `NODE_URLS`, in order (the first is the “top”
  reference; the `Poller` constructor rejects an empty list). -/
  nodes : List String
  /-- `CUTOFF_BLOCK`. -/
  cutoff : Nat
  /-- `self.lighthouse_api_url` nonempty. -/
  lighthouseConfigured : Bool
  /-- `LIGHTHOUSE_BACKFILL_ACTIVITY_WINDOW_SECONDS`. -/
  backfillWindow : ℚ
  deriving DecidableEq, Repr

/-- The beacon-API probe result. -/
inductive LhApi where
  | unreachable
  | ok (headSlot distance : Nat) (isSyncing : Bool)
  deriving DecidableEq, Repr

/-- All upstream data one round observes. -/
structure RoundIn where
  lh : LhApi
  /-- Metrics exposition text; `none` when `LIGHTHOUSE_METRICS_URL` is
  unset or the fetch raised (both leave the worker gauge `None`). -/
  lhMetricsText : Option String
  /-- Per-node RPC responses, keyed by configured display name. -/
  rpc : String → NodeRpc
  fs : Fs

/-- Poller instance state surviving across rounds
(`_lh_backfill_last_total`, `_lh_backfill_last_inc_ts`). -/
structure PState where
  lastTotal : Option ℚ
  lastIncTs : Option ℚ
  deriving DecidableEq, Repr

/-- `lighthouse_up` after the beacon-API probe. -/
def lhUp (cfg : Cfg) (ri : RoundIn) : Bool :=
  cfg.lighthouseConfigured &&
    (match ri.lh with
     | .ok _ _ _ => true
     | .unreachable => false)

/-- `lighthouse_is_syncing`. -/
def lhIsSyncing (cfg : Cfg) (ri : RoundIn) : Bool :=
  cfg.lighthouseConfigured &&
    (match ri.lh with
     | .ok _ _ s => s
     | .unreachable => false)

/-- `lighthouse_sync_distance`. -/
def lhDistance (cfg : Cfg) (ri : RoundIn) : Nat :=
  if cfg.lighthouseConfigured then
    match ri.lh with
    | .ok _ d _ => d
    | .unreachable => 0
  else 0

/-- `lighthouse_backfill_workers` (app.py 361–368): parsed from the metrics
text only when the beacon probe succeeded and the text was fetched. -/
def lighthouseBackfillWorkers (cfg : Cfg) (ri : RoundIn) : Option ℚ :=
  if lhUp cfg ri then
    match ri.lhMetricsText with
    | some t =>
      _parse_prom_number t "beacon_processor_workers_active_gauge_by_type"
        "type=\"chain_segment_backfill\""
    | none => none
  else none

/-- `backfill_total` (app.py 370–375). -/
def backfillTotal (cfg : Cfg) (ri : RoundIn) : Option ℚ :=
  if lhUp cfg ri then
    match ri.lhMetricsText with
    | some t =>
      _parse_prom_number t "beacon_processor_backfill_chain_segment_success_total" ""
    | none => none
  else none

/-- The backfill-counter state update (app.py 376–383), at wall-clock time
`now`. -/
def stepState (cfg : Cfg) (ri : RoundIn) (s : PState) (now : ℚ) : PState :=
  match backfillTotal cfg ri with
  | none => s
  | some t =>
    { lastTotal := some t,
      lastIncTs :=
        match s.lastTotal with
        | some t0 => if t0 < t then some now else s.lastIncTs
        | none => s.lastIncTs }

/-- The legacy/bridge node-name set (app.py line 331). -/
def legacyNodeNames : List (List Char) :=
  ["Geth v1.10.0".toList, "Geth v1.9.25".toList, "Geth v1.3.6".toList, "Geth v1.0.3".toList]

/-- `legacy_enabled` (app.py line 332). -/
def legacyEnabled (cfg : Cfg) : Bool :=
  cfg.nodes.any (fun n => pyStrip n ∈ legacyNodeNames)

/-- The sampler context derived from the round's disk snapshot. -/
def sampleEnvOf (cfg : Cfg) (fs : Fs) : SampleEnv :=
  { cutoff := cfg.cutoff, exportDoneExists := fs.exportDone, seedDoneExists := fs.seedDone }

/-- The entry the per-node dicts hold for `name` after the loop
(`none` when no configured node carries that exact name). -/
def nodeSample (cfg : Cfg) (ri : RoundIn) (name : String) : Option Sample :=
  if name ∈ cfg.nodes then some (sampleNode (sampleEnvOf cfg ri.fs) name (ri.rpc name)) else none

/-- `node_up.get(name, False)`. -/
def nodeUpD (cfg : Cfg) (ri : RoundIn) (name : String) : Bool :=
  ((nodeSample cfg ri name).map Sample.up).getD false

/-- `node_syncing.get(name, False)`. -/
def nodeSyncingD (cfg : Cfg) (ri : RoundIn) (name : String) : Bool :=
  ((nodeSample cfg ri name).map Sample.syncingFlag).getD false

/-- `node_effective_head.get(name, 0)`. -/
def nodeEffD (cfg : Cfg) (ri : RoundIn) (name : String) : Int :=
  ((nodeSample cfg ri name).map Sample.effHead).getD 0

/-- `top_name` (app.py line 269). -/
def topName (cfg : Cfg) : String := cfg.nodes.headD ""

/-- `v925_import_current` (app.py 549–563). -/
def v925ImportCurrent (cfg : Cfg) (fs : Fs) : Nat :=
  if legacyEnabled cfg then (fs.v925ImportLog.bind (fun v => v.segNumberLoose)).getD 0 else 0

/-- `v925_import_running` (app.py 560). -/
def v925ImportRunning (cfg : Cfg) (fs : Fs) : Bool :=
  legacyEnabled cfg && fs.v925ImportLog.isSome &&
    (decide (0 < v925ImportCurrent cfg fs) && decide (v925ImportCurrent cfg fs < cfg.cutoff))

/-- `v110_export_running` (app.py 567). -/
def v110ExportRunning (cfg : Cfg) (fs : Fs) : Bool :=
  legacyEnabled cfg && fs.v110ExportMarker

/-- `v110_export_current` (app.py 566–575). -/
def v110ExportCurrent (cfg : Cfg) (fs : Fs) : Nat :=
  if legacyEnabled cfg then (fs.v110ExportLog.bind (fun v => v.exportedNumber)).getD 0 else 0

/-- Stage `01. Lighthouse syncing from snapshot` (app.py 582–589). -/
def stage01 (cfg : Cfg) (ri : RoundIn) : Nat :=
  if lhUp cfg ri = false then 0
  else if lhIsSyncing cfg ri = true ∨ 0 < lhDistance cfg ri then 1
  else 2

/-- `backfill_recent` (app.py 599–603). -/
def backfillRecent (cfg : Cfg) (s : PState) (now : ℚ) : Bool :=
  match s.lastIncTs with
  | some ts => now - ts ≤ cfg.backfillWindow
  | none => false

/-- Stage `02. Lighthouse indexing/backfill` (app.py 591–615). -/
def stage02 (cfg : Cfg) (ri : RoundIn) (s : PState) (now : ℚ) : Nat :=
  if lhUp cfg ri = false then 0
  else
    match lighthouseBackfillWorkers cfg ri with
    | some w => if 0 < w ∨ backfillRecent cfg s now = true then 1 else 2
    | none => if lhIsSyncing cfg ri = true ∨ 0 < lhDistance cfg ri then 1 else 2

/-- Stage `03. Geth v1.16.7 syncing` (app.py 617–623). -/
def stage03 (cfg : Cfg) (ri : RoundIn) : Nat :=
  if nodeUpD cfg ri (topName cfg) = false then 0
  else if nodeSyncingD cfg ri (topName cfg) then 1
  else 2

/-- `export_last_done` (app.py 633–640). -/
def exportLastDone (fs : Fs) : Option Int := readLastDone fs.exportProgress

/-- Stage `04. Geth v1.16.7 exporting data` (app.py 625–647). -/
def stage04 (cut : Nat) (fs : Fs) : Nat :=
  if fs.exportDone then 2
  else if fs.exportMarker then 1
  else
    match exportLastDone fs with
    | none => 0
    | some ld => if (cut : Int) ≤ ld then 2 else 1

/-- `importing` derived from the seed log (app.py 656–660). -/
def seedImporting (fs : Fs) : Bool :=
  (fs.seedLog.map (fun v => v.importingPhrase)).getD false

/-- `import_current` derived from the seed log (app.py 661–673). -/
def seedImportCurrent (fs : Fs) : Nat :=
  match fs.seedLog with
  | some v =>
    match v.segNumber with
    | some n => n
    | none => v.oldImportNumber.getD 0
  | none => 0

/-- Stage `05. Geth v1.11.6 importing data` (app.py 649–679). -/
def stage05 (fs : Fs) : Nat :=
  if fs.seedDone then 2
  else if fs.importMarker || seedImporting fs then 1
  else 0

/-- The `legacy_stage` helper (app.py 682–692). -/
def legacyStageStatus (cfg : Cfg) (ri : RoundIn) (node : String) : Nat :=
  if nodeUpD cfg ri node = false then 0
  else if (cfg.cutoff : Int) ≤ nodeEffD cfg ri node then 2
  else if 0 < nodeEffD cfg ri node then 1
  else 0

/-- Stage `06. Geth v1.10.0 syncing` (app.py 695, 823). -/
def stage06 (cfg : Cfg) (ri : RoundIn) : Nat :=
  if legacyEnabled cfg then legacyStageStatus cfg ri "Geth v1.10.0" else 0

/-- `min_export_bytes = 16 * 1024 * 1024` (app.py 698, 741, 911). -/
def minExportBytes : Nat := 16 * 1024 * 1024

/-- `v110_export_file_ok` (app.py 699–704). -/
def v110ExportFileOk (fs : Fs) : Bool :=
  match fs.v110ExportFile with
  | some sz => minExportBytes ≤ sz
  | none => false

/-- `v110_export_done` (app.py 708). -/
def v110ExportDoneB (fs : Fs) : Bool :=
  (fs.v110ExportDone && v110ExportFileOk fs) || fs.v925ImportDone

/-- Stage `07. Geth v1.10.0 exporting data` (app.py 697–715, 824). -/
def stage07 (cfg : Cfg) (fs : Fs) : Nat :=
  if legacyEnabled cfg = false then 0
  else if v110ExportDoneB fs then 2
  else if v110ExportRunning cfg fs || decide (0 < v110ExportCurrent cfg fs) then 1
  else 0

/-- Stage `08. Geth v1.9.25 importing data` (app.py 717–730, 825). -/
def stage08 (cfg : Cfg) (ri : RoundIn) : Nat :=
  if legacyEnabled cfg = false then 0
  else if ri.fs.v925ImportDone then 2
  else if 0 < v925ImportCurrent cfg ri.fs ∨ ri.fs.v925ImportLog.isSome = true then
    if cfg.cutoff ≤ v925ImportCurrent cfg ri.fs ∨
        (cfg.cutoff : Int) ≤ nodeEffD cfg ri "Geth v1.9.25" then 2
    else 1
  else legacyStageStatus cfg ri "Geth v1.9.25"

/-- `v136_export_file_ok` (app.py 742–747). -/
def v136ExportFileOk (fs : Fs) : Bool :=
  match fs.v136ExportFile with
  | some sz => minExportBytes ≤ sz
  | none => false

/-- `v136_export_done` (app.py 748): done marker AND plausibly large file. -/
def v136ExportDoneB (fs : Fs) : Bool :=
  fs.v136ExportDone && v136ExportFileOk fs

/-- `v136_export_last_done` (app.py 750–757). -/
def v136ExportLastDone (fs : Fs) : Option Int := readLastDone fs.v136ExportProgress

/-- The marker/progress-derived fallback of stage 09 (the `elif` chain at
app.py 761–769, reached when the corroborated done signal is absent). -/
def stage09Fallback (cut : Nat) (fs : Fs) : Nat :=
  match v136ExportLastDone fs with
  | some ld => if (cut : Int) ≤ ld then 2 else 1
  | none => if fs.v136ExportMarker then 1 else 0

/-- Stage `09. Geth v1.9.25 exporting data` (app.py 732–769, 826). -/
def stage09 (cfg : Cfg) (fs : Fs) : Nat :=
  if legacyEnabled cfg = false then 0
  else if v136ExportDoneB fs then 2
  else stage09Fallback cfg.cutoff fs

/-- `v136_node_head` (app.py 776). -/
def v136NodeHead (cfg : Cfg) (ri : RoundIn) : Int := nodeEffD cfg ri "Geth v1.3.6"

/-- `v136_done_effective` (app.py 777). -/
def v136DoneEffective (cfg : Cfg) (ri : RoundIn) : Bool :=
  ri.fs.v136SeedDone && decide ((cfg.cutoff : Int) ≤ v136NodeHead cfg ri)

/-- `v136_export_started` (app.py 781–785). -/
def v136ExportStarted (fs : Fs) : Bool :=
  fs.v136ExportMarker || v136ExportDoneB fs || (v136ExportLastDone fs).isSome

/-- `(v136_importing, v136_import_current)` after the stage-10 branch
(app.py 772–812): both keep their initial `False`/`0` unless the final
`else` arm runs. -/
def v136ImportingPair (cfg : Cfg) (ri : RoundIn) : Bool × Nat :=
  if v136DoneEffective cfg ri || !(v136ExportStarted ri.fs) then (false, 0)
  else
    let fromLog : Bool := (ri.fs.v136ImportLog.map (fun v => v.importingPhrase)).getD false
    let current : Nat :=
      match ri.fs.v136ImportLog with
      | some v =>
        match v.segNumber with
        | some n => n
        | none => v.oldImportNumber.getD 0
      | none => 0
    (ri.fs.v136ImportMarker || fromLog, current)

/-- Stage `10. Geth v1.3.6 importing data` (app.py 771–817, 827). -/
def stage10 (cfg : Cfg) (ri : RoundIn) : Nat :=
  if legacyEnabled cfg = false then 0
  else if v136DoneEffective cfg ri then 2
  else if v136ExportStarted ri.fs = false then 0
  else if (v136ImportingPair cfg ri).1 then 1
  else 0

/-- Stage `11. Geth v1.0.3 syncing` (app.py 820, 828). -/
def stage11 (cfg : Cfg) (ri : RoundIn) : Nat :=
  if legacyEnabled cfg then legacyStageStatus cfg ri "Geth v1.0.3" else 0

/-- The eleven stage statuses one round emits. -/
structure Stages where
  s01 : Nat
  s02 : Nat
  s03 : Nat
  s04 : Nat
  s05 : Nat
  s06 : Nat
  s07 : Nat
  s08 : Nat
  s09 : Nat
  s10 : Nat
  s11 : Nat
  deriving DecidableEq, Repr

/-- The full stage checklist derivation of one round. -/
def roundStages (cfg : Cfg) (ri : RoundIn) (s : PState) (now : ℚ) : Stages :=
  { s01 := stage01 cfg ri
    s02 := stage02 cfg ri s now
    s03 := stage03 cfg ri
    s04 := stage04 cfg.cutoff ri.fs
    s05 := stage05 ri.fs
    s06 := stage06 cfg ri
    s07 := stage07 cfg ri.fs
    s08 := stage08 cfg ri
    s09 := stage09 cfg ri.fs
    s10 := stage10 cfg ri
    s11 := stage11 cfg ri }

/-! ### Synthetic phase rows (app.py lines 830–991) -/

/-- One synthetic export/import row as emitted by `emit_phase_row`:
sort key, `geth_up`, effective head (`current`), target, percent, the
progress label and the `g_syncing` flag (`running`). -/
structure PhaseRow where
  sortKey : ℚ
  up : Bool
  current : Int
  target : Int
  pct : ℚ
  label : ProgressLabel
  running : Bool
  deriving DecidableEq, Repr

/-- `emit_phase_row` (app.py 833–851). -/
def emitPhaseRow (sk : ℚ) (current target : Int) (running upFlag : Bool) : PhaseRow :=
  let pct : ℚ := if 0 < target then (current : ℚ) * 100 / (target : ℚ) else 0
  { sortKey := sk
    up := upFlag
    current := current
    target := target
    pct := pct
    label := if 0 < target then .fmt current target pct else .zeroZero
    running := running }

/-- `export_current` before the `.progress` fallback (app.py 856–873). -/
def exportCurrentRaw (fs : Fs) (cut : Nat) : Int :=
  if fs.exportDone then (cut : Int)
  else (((fs.seedLog.bind (fun v => v.exportedNumber)).getD 0 : Nat) : Int)

/-- `export_current` after the `.progress` fallback (app.py 875–882). -/
def exportCurrent (fs : Fs) (cut : Nat) : Int :=
  let ec := exportCurrentRaw fs cut
  if ec = 0 then
    match readLastDone fs.exportProgress with
    | some ld => ld
    | none => 0
  else ec

/-- Row `Export (v1.16.7 → RLP)` (app.py 853–890). -/
def exportRow (fs : Fs) (cut : Nat) : PhaseRow :=
  emitPhaseRow 1.5 (exportCurrent fs cut) (cut : Int) fs.exportMarker fs.exportMarker

/-- Row `Import (RLP → v1.11.6)` (app.py 892–905). -/
def importRow (fs : Fs) (cut : Nat) : PhaseRow :=
  let idone := fs.seedDone
  let irun := if idone then false else fs.importMarker || seedImporting fs
  emitPhaseRow 1.6 (if idone then (cut : Int) else (seedImportCurrent fs : Int)) (cut : Int)
    irun irun

/-- `v110_export_up` (app.py 919–924). -/
def v110ExportUp (fs : Fs) : Bool :=
  fs.v110ExportMarker || fs.v110ExportFile.isSome || fs.v110ExportDone || fs.v110ExportLog.isSome

/-- Row `Export (v1.10.0 → RLP)` (app.py 910–932; zeroed at 988 when the
legacy chain is disabled). -/
def v110Row (cfg : Cfg) (fs : Fs) : PhaseRow :=
  if legacyEnabled cfg then
    emitPhaseRow 3.5
      (if v110ExportDoneB fs then (cfg.cutoff : Int) else (v110ExportCurrent cfg fs : Int))
      (cfg.cutoff : Int)
      (v110ExportRunning cfg fs && !(v110ExportDoneB fs))
      (v110ExportUp fs)
  else emitPhaseRow 3.5 0 (cfg.cutoff : Int) false false

/-- Row `Import (RLP → v1.9.25)` (app.py 934–941; zeroed at 989). -/
def v925Row (cfg : Cfg) (fs : Fs) : PhaseRow :=
  if legacyEnabled cfg then
    emitPhaseRow 4.4
      (if cfg.cutoff ≤ v925ImportCurrent cfg fs then (cfg.cutoff : Int)
       else (v925ImportCurrent cfg fs : Int))
      (cfg.cutoff : Int)
      (v925ImportRunning cfg fs)
      (fs.v925ImportLog.isSome || fs.v925ImportDone || decide (0 < v925ImportCurrent cfg fs))
  else emitPhaseRow 4.4 0 (cfg.cutoff : Int) false false

/-- Row `Export (v1.9.25 → RLP)` (app.py 943–966; zeroed at 990). -/
def v136ExportRow (cfg : Cfg) (fs : Fs) : PhaseRow :=
  if legacyEnabled cfg then
    let up := fs.v136ExportMarker || fs.v136ExportProgress.isSome || fs.v136ExportFile.isSome ||
      v136ExportDoneB fs || fs.v136ExportDone
    let run :=
      ((match v136ExportLastDone fs with
        | some ld => decide (ld < (cfg.cutoff : Int))
        | none => false) || fs.v136ExportMarker) && !(v136ExportDoneB fs)
    emitPhaseRow 4.5
      (if v136ExportDoneB fs then (cfg.cutoff : Int) else (v136ExportLastDone fs).getD 0)
      (cfg.cutoff : Int) run up
  else emitPhaseRow 4.5 0 (cfg.cutoff : Int) false false

/-- Row `Import (RLP → v1.3.6)` (app.py 968–984; zeroed at 991). -/
def v136ImportRow (cfg : Cfg) (ri : RoundIn) : PhaseRow :=
  if legacyEnabled cfg then
    let done6 := v136DoneEffective cfg ri
    let pair := v136ImportingPair cfg ri
    let up := v136ExportStarted ri.fs &&
      (ri.fs.v136ImportMarker || ri.fs.v136ImportLog.isSome || done6 || decide (0 < pair.2))
    emitPhaseRow 4.6
      (if done6 then (cfg.cutoff : Int) else max (pair.2 : Int) (v136NodeHead cfg ri))
      (cfg.cutoff : Int)
      (pair.1 && !done6)
      up
  else emitPhaseRow 4.6 0 (cfg.cutoff : Int) false false

/-- The six synthetic rows one round emits. -/
structure PhaseRows where
  export1167 : PhaseRow
  import1116 : PhaseRow
  export1100 : PhaseRow
  import925 : PhaseRow
  export925 : PhaseRow
  import136 : PhaseRow
  deriving DecidableEq, Repr

/-- The phase-row derivation of one round. -/
def roundPhaseRows (cfg : Cfg) (ri : RoundIn) : PhaseRows :=
  { export1167 := exportRow ri.fs cfg.cutoff
    import1116 := importRow ri.fs cfg.cutoff
    export1100 := v110Row cfg ri.fs
    import925 := v925Row cfg ri.fs
    export925 := v136ExportRow cfg ri.fs
    import136 := v136ImportRow cfg ri }

/-- Everything claim-relevant one round emits: the stage checklist and the
synthetic phase rows. -/
structure RoundOut where
  stages : Stages
  rows : PhaseRows
  deriving DecidableEq, Repr

/-- One round's derived output from upstream data `ri`, poller state `s`
and wall-clock time `now`. -/
def roundOut (cfg : Cfg) (ri : RoundIn) (s : PState) (now : ℚ) : RoundOut :=
  { stages := roundStages cfg ri s now
    rows := roundPhaseRows cfg ri }

/-! ### Concrete fixtures used by counterexamples and witnesses -/

/-- A sampler context: default cutoff, neither marker present. -/
def c1Env : SampleEnv := { cutoff := 1919999, exportDoneExists := false, seedDoneExists := false }

/-- Round-1 responses: height `0x64` (= 100), not syncing. -/
def c1Round1 : NodeRpc :=
  { blockNumber := some (.pyStr "0x64"), peerCount := none, syncing := .rpcFalse }

/-- Round-2 responses: the required height probe fails. -/
def c1Round2 : NodeRpc := { blockNumber := none, peerCount := none, syncing := .rpcNone }

/-- A disk snapshot with nothing present at all. -/
def emptyFs : Fs :=
  { exportProgress := none, exportFile := none, exportMarker := false, exportDone := false
    seedLog := none, seedDone := false, importMarker := false
    v136ExportFile := none, v136ExportProgress := none, v136ExportMarker := false
    v136ExportDone := false, v136ImportMarker := false, v136ImportLog := none
    v136SeedDone := false, v925ImportLog := none, v925ImportDone := false
    v110ExportFile := none, v110ExportMarker := false, v110ExportLog := none
    v110ExportDone := false }

/-- A stale v1.11.6 import marker with no export artifacts at all. -/
def c2Fs : Fs := { emptyFs with importMarker := true }

def c2Cfg : Cfg :=
  { nodes := ["Geth v1.16.7"], cutoff := 1919999, lighthouseConfigured := false,
    backfillWindow := 300 }

def c2Ri : RoundIn :=
  { lh := .unreachable, lhMetricsText := none,
    rpc := fun _ => { blockNumber := none, peerCount := none, syncing := .rpcNone }, fs := c2Fs }

/-- A round observing an empty disk. -/
def c2bRi : RoundIn :=
  { lh := .unreachable, lhMetricsText := none,
    rpc := fun _ => { blockNumber := none, peerCount := none, syncing := .rpcNone },
    fs := emptyFs }

/-- Done marker present, output file 1 KB. -/
def c3Fs : Fs := { emptyFs with exportDone := true, exportFile := some 1024 }

/-- Done markers present for the v1.9.25/v1.10.0 exports, files 1 KB. -/
def c3bFs : Fs :=
  { emptyFs with
    v136ExportDone := true
    v136ExportFile := some 1024
    v110ExportDone := true
    v110ExportFile := some 1024 }

/-- A configuration with the legacy chain enabled. -/
def c3Cfg : Cfg :=
  { nodes := ["Geth v1.10.0"], cutoff := 1919999, lighthouseConfigured := false,
    backfillWindow := 300 }

def c7Env : SampleEnv := { cutoff := 1919999, exportDoneExists := true, seedDoneExists := true }

/-- Height 40, `eth_syncing = {currentBlock: 50, highestBlock: 200}`. -/
def c7Rpc : NodeRpc :=
  { blockNumber := some (.pyInt 40), peerCount := none, syncing := .dict (.pyInt 50) (.pyInt 200) }

/-- Height `0x64`, 3 peers, `eth_syncing = False`. -/
def c8Rpc : NodeRpc :=
  { blockNumber := some (.pyStr "0x64"), peerCount := some (.pyInt 3), syncing := .rpcFalse }

/-- Height 7, `eth_syncing` returned a non-dict value (e.g. `True`). -/
def c10Rpc : NodeRpc :=
  { blockNumber := some (.pyInt 7), peerCount := none, syncing := .nonDict }

/-- A log tail in which every pattern has an occurrence. -/
def staleLog : LogView :=
  { importingPhrase := true, segNumber := some 500, segNumberLoose := some 500,
    oldImportNumber := some 500, exportedNumber := some 500 }

/-- A disk snapshot in which every legacy artifact is present (stale). -/
def c9Fs : Fs :=
  { exportProgress := none, exportFile := none, exportMarker := false, exportDone := false
    seedLog := none, seedDone := false, importMarker := false
    v136ExportFile := some 99999999, v136ExportProgress := some (.dictLast (.pyInt 1000))
    v136ExportMarker := true, v136ExportDone := true, v136ImportMarker := true
    v136ImportLog := some staleLog, v136SeedDone := true, v925ImportLog := some staleLog
    v925ImportDone := true, v110ExportFile := some 99999999, v110ExportMarker := true
    v110ExportLog := some staleLog, v110ExportDone := true }

/-- No legacy node configured. -/
def c9Cfg : Cfg :=
  { nodes := ["Geth v1.16.7"], cutoff := 1919999, lighthouseConfigured := false,
    backfillWindow := 300 }

def c9Ri : RoundIn :=
  { lh := .unreachable, lhMetricsText := none,
    rpc := fun _ => { blockNumber := none, peerCount := none, syncing := .rpcNone },
    fs := c9Fs }

/-! ### The compiled prom patterns never yield a parsable number -/

/-- Any numeric capture produced by `matchNum` starts, after its optional
sign, with a literal backslash, so the modelled `float(...)` fails. -/
lemma matchNum_none_float {cs g} (h : matchNum cs = some g) : pyFloatChars g = none := by
  unfold matchNum at h
  split at h <;>
    · obtain ⟨g0, hg0, rfl⟩ := Option.map_eq_some'.mp h
      rfl

lemma matchSpacesThenNum_none_float {cs g} (h : matchSpacesThenNum cs = some g) :
    pyFloatChars g = none := by
  unfold matchSpacesThenNum at h
  split at h
  · dsimp only at h
    split at h
    · simp at h
    · exact matchNum_none_float h
  · simp at h

lemma matchLabeledLine_none_float {metric l a g}
    (h : matchLabeledLine metric l = some (a, g)) : pyFloatChars g = none := by
  unfold matchLabeledLine at h
  split at h
  · simp at h
  · split at h
    · split at h
      · dsimp only at h
        split at h
        · split at h
          · obtain ⟨g0, hg0, heq⟩ := Option.map_eq_some'.mp h
            obtain ⟨-, rfl⟩ := Prod.mk.injEq .. ▸ heq
            exact matchSpacesThenNum_none_float hg0
          · simp at h
        · simp at h
      · simp at h
    · simp at h

lemma matchPlainLine_none_float {metric l g}
    (h : matchPlainLine metric l = some g) : pyFloatChars g = none := by
  unfold matchPlainLine at h
  obtain ⟨r, hr, hg⟩ := Option.bind_eq_some.mp h
  exact matchSpacesThenNum_none_float hg

lemma findLabeled_none_float {metric sel lines a g}
    (h : findLabeled metric sel lines = some (a, g)) : pyFloatChars g = none := by
  induction lines with
  | nil => simp [findLabeled] at h
  | cons l ls ih =>
    unfold findLabeled at h
    split at h
    · split at h
      · exact ih h
      · rename_i a0 g0 heq _
        obtain ⟨rfl, rfl⟩ := Prod.mk.injEq .. ▸ (Option.some.injEq _ _ ▸ h)
        exact matchLabeledLine_none_float heq
    · exact ih h

lemma findPlain_none_float {metric lines g}
    (h : findPlain metric lines = some g) : pyFloatChars g = none := by
  induction lines with
  | nil => simp [findPlain] at h
  | cons l ls ih =>
    unfold findPlain at h
    split at h
    · rename_i g0 heq
      obtain rfl := Option.some.injEq _ _ ▸ h
      exact matchPlainLine_none_float heq
    · exact ih h

/-- The patterns compiled by `_parse_prom_number` demand literal backslashes
in the numeric capture, so `float(...)` always raises and the function
returns `None` on every input. -/
lemma parse_prom_number_eq_none (text metric label_selector : String) :
    _parse_prom_number text metric label_selector = none := by
  unfold _parse_prom_number
  rcases hfl : findLabeled metric.toList label_selector.toList (splitNl text.toList) with _ | ⟨a, g⟩
  · simp only [hfl]
    split
    · rcases hpl : findPlain metric.toList (splitNl text.toList) with _ | g
      · simp [hpl]
      · simp [hpl, findPlain_none_float hpl]
    · rfl
  · simp only [hfl]
    exact findLabeled_none_float hfl

/-! ### Character-class facts used by the `hex_to_int` analysis -/

lemma isWsC_eq_false_of_isHexLowC {c : Char} (h : isHexLowC c = true) : isWsC c = false := by
  unfold isHexLowC isDigitC at h
  unfold isWsC
  simp only [decide_eq_true_eq, Bool.or_eq_true] at h
  simp only [decide_eq_false_iff_not]
  omega

lemma lowerC_eq_self_of_isHexLowC {c : Char} (h : isHexLowC c = true) : lowerC c = c := by
  unfold isHexLowC isDigitC at h
  unfold lowerC
  simp only [decide_eq_true_eq, Bool.or_eq_true] at h
  rw [if_neg]
  omega

lemma isHexLowC_of_isDigitC {c : Char} (h : isDigitC c = true) : isHexLowC c = true := by
  simp [isHexLowC, h]

lemma dropWhile_eq_self_of_all {p : Char → Bool} {l : List Char}
    (h : ∀ c ∈ l, p c = false) : l.dropWhile p = l := by
  cases l with
  | nil => rfl
  | cons c t => simp [List.dropWhile_cons, h c (List.mem_cons_self c t)]

lemma trimChars_of_all {l : List Char} (h : ∀ c ∈ l, isWsC c = false) : trimChars l = l := by
  unfold trimChars
  rw [dropWhile_eq_self_of_all h,
    dropWhile_eq_self_of_all (fun c hc => h c (List.mem_reverse.mp hc)), List.reverse_reverse]

lemma map_lowerC_of_all {l : List Char} (h : ∀ c ∈ l, lowerC c = c) : l.map lowerC = l :=
  (List.map_congr_left h).trans l.map_id

/-- The string branch of `hex_to_int` raises `ValueError` (never
`TypeError`) on malformed strings. -/
lemma hexToIntStr_ne_typeError (s : String) : hexToIntStr s ≠ .error .typeError := by
  unfold hexToIntStr
  intro hcon
  dsimp only at hcon
  split at hcon
  · split at hcon <;> simp_all
  · split at hcon <;> simp_all

/-- `hex_to_int` on a well-formed `0x`-prefixed hex string. -/
lemma hex_value_ok {l : List Char} (hne : l ≠ []) (hall : ∀ c ∈ l, isHexLowC c = true) :
    hex_to_int (.pyStr (String.mk ('0' :: 'x' :: l))) = .ok (hexValChars l) := by
  show hexToIntStr _ = _
  unfold hexToIntStr
  have htl : (String.mk ('0' :: 'x' :: l)).toList = '0' :: 'x' :: l := rfl
  rw [htl]
  have htrim : trimChars ('0' :: 'x' :: l) = '0' :: 'x' :: l := by
    apply trimChars_of_all
    intro c hc
    rw [List.mem_cons] at hc
    rcases hc with rfl | hc
    · decide
    rw [List.mem_cons] at hc
    rcases hc with rfl | hc
    · decide
    · exact isWsC_eq_false_of_isHexLowC (hall c hc)
  rw [htrim]
  have hmap : ('0' :: 'x' :: l).map lowerC = '0' :: 'x' :: l := by
    simp only [List.map_cons]
    rw [map_lowerC_of_all (fun c hc => lowerC_eq_self_of_isHexLowC (hall c hc))]
    rfl
  rw [hmap]
  rw [if_pos (by rfl)]
  have hdrop : List.drop 2 ('0' :: 'x' :: l) = l := rfl
  unfold parseHexPart
  rw [hdrop, if_pos ⟨hne, List.all_eq_true.mpr hall⟩]

/-- `hex_to_int` on a well-formed decimal string, unsigned and negated. -/
lemma dec_value_ok {l : List Char} (hne : l ≠ []) (hall : ∀ c ∈ l, isDigitC c = true) :
    hex_to_int (.pyStr (String.mk l)) = .ok (decValChars l) ∧
    hex_to_int (.pyStr (String.mk ('-' :: l))) = .ok (-(decValChars l)) := by
  have hws : ∀ c ∈ l, isWsC c = false :=
    fun c hc => isWsC_eq_false_of_isHexLowC (isHexLowC_of_isDigitC (hall c hc))
  have hlow : ∀ c ∈ l, lowerC c = c :=
    fun c hc => lowerC_eq_self_of_isHexLowC (isHexLowC_of_isDigitC (hall c hc))
  have hx : ('x' : Char) ∉ l := by
    intro hmem
    have := hall _ hmem
    exact absurd this (by decide)
  have hpd : parseDigits l = some (decValChars l) := by
    unfold parseDigits
    rw [if_pos ⟨hne, List.all_eq_true.mpr hall⟩]
  have hdec : pyIntOfDecStr l = some (decValChars l) := by
    unfold pyIntOfDecStr
    split
    · exact absurd (hall '-' (List.mem_cons_self _ _)) (by decide)
    · exact absurd (hall '+' (List.mem_cons_self _ _)) (by decide)
    · exact hpd
  constructor
  · show hexToIntStr _ = _
    unfold hexToIntStr
    rw [show (String.mk l).toList = l from rfl, trimChars_of_all hws, map_lowerC_of_all hlow]
    rw [if_neg (fun hcon => hx (List.take_subset 2 l (by rw [hcon]; simp)))]
    rw [hdec]
  · show hexToIntStr _ = _
    unfold hexToIntStr
    rw [show (String.mk ('-' :: l)).toList = '-' :: l from rfl]
    have htrim : trimChars ('-' :: l) = '-' :: l := by
      apply trimChars_of_all
      intro c hc
      rw [List.mem_cons] at hc
      rcases hc with rfl | hc
      · decide
      · exact hws c hc
    rw [htrim]
    have hmap : ('-' :: l).map lowerC = '-' :: l := by
      simp only [List.map_cons]
      rw [map_lowerC_of_all hlow]
      rfl
    rw [hmap]
    have htake : ('-' :: l).take 2 ≠ ['0', 'x'] := by
      intro hcon
      have hred : ('-' :: l).take 2 = '-' :: l.take 1 := rfl
      rw [hred] at hcon
      simp only [List.cons.injEq] at hcon
      exact absurd hcon.1 (by decide)
    rw [if_neg htake]
    have hneg : pyIntOfDecStr ('-' :: l) = (parseDigits l).map Int.neg := rfl
    rw [hneg, hpd]
    rfl

/-! ### Claim theorems -/

/-- C5 (amended): `hex_to_int` returns the integer value of a `0x`-prefixed
hex string, a decimal string (optionally signed) or a native integer
(including `bool`, an `int` subclass), returns 0 for `None`, and raises
`TypeError` exactly for non-`int`/non-`str`/non-`None` inputs; a *string*
that parses as neither hex nor decimal raises `ValueError`, not the
claimed `TypeError`. -/
theorem C5_hex_to_int_coercion :
    hex_to_int .pyNone = .ok 0 ∧
    (∀ n : Int, hex_to_int (.pyInt n) = .ok n) ∧
    (∀ b : Bool, hex_to_int (.pyBool b) = .ok (if b then 1 else 0)) ∧
    (∀ q : ℚ, hex_to_int (.pyFloat q) = .error .typeError) ∧
    hex_to_int .pyOther = .error .typeError ∧
    (∀ s : String, hex_to_int (.pyStr s) ≠ .error .typeError) ∧
    (∀ l : List Char, l ≠ [] → (∀ c ∈ l, isHexLowC c = true) →
      hex_to_int (.pyStr (String.mk ('0' :: 'x' :: l))) = .ok (hexValChars l)) ∧
    (∀ l : List Char, l ≠ [] → (∀ c ∈ l, isDigitC c = true) →
      hex_to_int (.pyStr (String.mk l)) = .ok (decValChars l) ∧
      hex_to_int (.pyStr (String.mk ('-' :: l))) = .ok (-(decValChars l))) :=
  ⟨rfl, fun _ => rfl, fun _ => rfl, fun _ => rfl, rfl, hexToIntStr_ne_typeError,
    fun _ h1 h2 => hex_value_ok h1 h2, fun _ h1 h2 => dec_value_ok h1 h2⟩

/-- Witness for C5: the theorem applied at `"0x64"` and `"45"`. -/
theorem C5_hex_to_int_coercion_witness :
    hex_to_int (.pyStr (String.mk ['0', 'x', '6', '4'])) = .ok 100 ∧
    hex_to_int (.pyStr (String.mk ['4', '5'])) = .ok 45 := by
  have h1 := C5_hex_to_int_coercion.2.2.2.2.2.2.1 ['6', '4'] (by decide) (by decide)
  have h2 := (C5_hex_to_int_coercion.2.2.2.2.2.2.2 ['4', '5'] (by decide) (by decide)).1
  constructor
  · rw [h1]; decide
  · rw [h2]; decide

/-- C5 counterexample: the claim says every input that is not a hex
string, decimal string, integer or `None` fails with `TypeError`; the
string `"abc"` is such an input, yet `hex_to_int` raises `ValueError`. -/
theorem C5_counterexample :
    hex_to_int (.pyStr "abc") = .error .valueError ∧
      (Except.error PyErr.valueError : Except PyErr Int) ≠ .error .typeError :=
  ⟨rfl, by decide⟩

/-- C6 (code bug): the claim — and the function's own docstring — say the
parser extracts `metric{labels} value` lines, but the doubled backslashes
in the raw f-string make the compiled patterns unsatisfiable by any real
exposition line, so `_parse_prom_number` returns `None` for *every* input:
in particular at the exporter's own call site
(`beacon_processor_workers_active_gauge_by_type{type="chain_segment_backfill"} 5`
with that very metric and selector, where the claim demands `5.0`), and for
the unlabeled form `metric 5` with an empty selector. -/
theorem C6_parse_prom_number_failing_input :
    (∀ text metric sel : String, _parse_prom_number text metric sel = none) ∧
    _parse_prom_number
      "beacon_processor_workers_active_gauge_by_type\x7btype=\"chain_segment_backfill\"\x7d 5"
      "beacon_processor_workers_active_gauge_by_type" "type=\"chain_segment_backfill\"" = none ∧
    _parse_prom_number "metric 5" "metric" "" = none :=
  ⟨parse_prom_number_eq_none, rfl, rfl⟩

/-- C8: for every up node whose `eth_syncing` came back `None` (method not
implemented / call failed) or `False`, the sampler reports
`effective_head` equal to the reported height and zero
`sync_current`/`sync_highest`. -/
theorem C8_not_syncing (env : SampleEnv) (name : String) (rpc : NodeRpc)
    (hgate : ¬ (pyStrip name = "Geth v1.11.6".toList ∧ env.seedDoneExists = false))
    (bv : PyVal) (hbv : rpc.blockNumber = some bv) (h : Int) (hh : hex_to_int bv = .ok h)
    (pc : Int) (hpc : hex_to_int (optVal rpc.peerCount) = .ok pc)
    (hsync : rpc.syncing = .rpcNone ∨ rpc.syncing = .rpcFalse) :
    (sampleNode env name rpc).up = true ∧
    (sampleNode env name rpc).effHead = h ∧
    (sampleNode env name rpc).syncCur = 0 ∧
    (sampleNode env name rpc).syncHi = 0 := by
  unfold sampleNode
  rw [if_neg hgate, hbv]
  dsimp only
  rcases hsync with hs | hs <;>
    · rw [hh]
      dsimp only
      rw [hpc]
      dsimp only
      rw [hs]
      simp [notSyncingSample]

/-- Witness for C8: the theorem applied at height `0x64`, 3 peers,
`eth_syncing = False`. -/
theorem C8_not_syncing_witness :
    (sampleNode c1Env "Node C" c8Rpc).up = true ∧
    (sampleNode c1Env "Node C" c8Rpc).effHead = 100 ∧
    (sampleNode c1Env "Node C" c8Rpc).syncCur = 0 ∧
    (sampleNode c1Env "Node C" c8Rpc).syncHi = 0 :=
  C8_not_syncing c1Env "Node C" c8Rpc (by decide) (.pyStr "0x64") rfl 100 rfl 3 rfl (Or.inr rfl)

/-- C10: if `eth_syncing` returns any value other than `None`, `False` or a
dict (for example the boolean `True`), the per-node handler lands in the
`except` arm: `up = 0` and syncing, sync_current, sync_highest,
effective head, target and percent all zero — while the block gauge keeps
the value already written from the successful `eth_blockNumber` probe. -/
theorem C10_other_syncing_value_marks_down (env : SampleEnv) (name : String) (rpc : NodeRpc)
    (hgate : ¬ (pyStrip name = "Geth v1.11.6".toList ∧ env.seedDoneExists = false))
    (bv : PyVal) (hbv : rpc.blockNumber = some bv) (h : Int) (hh : hex_to_int bv = .ok h)
    (pc : Int) (hpc : hex_to_int (optVal rpc.peerCount) = .ok pc)
    (hsync : rpc.syncing = .nonDict) :
    (sampleNode env name rpc).up = false ∧
    (sampleNode env name rpc).syncingFlag = false ∧
    (sampleNode env name rpc).syncCur = 0 ∧
    (sampleNode env name rpc).syncHi = 0 ∧
    (sampleNode env name rpc).effHead = 0 ∧
    (sampleNode env name rpc).target = 0 ∧
    (sampleNode env name rpc).pct = 0 ∧
    (sampleNode env name rpc).block = some h ∧
    (sampleNode env name rpc).label = .down := by
  unfold sampleNode
  rw [if_neg hgate, hbv]
  dsimp only
  rw [hh]
  dsimp only
  rw [hpc]
  dsimp only
  rw [hsync]
  simp [failSample]

/-- Witness for C10: the theorem applied at height 7 with a non-dict
`eth_syncing` result. -/
theorem C10_other_syncing_value_marks_down_witness :
    (sampleNode c1Env "Node D" c10Rpc).up = false ∧
    (sampleNode c1Env "Node D" c10Rpc).syncingFlag = false ∧
    (sampleNode c1Env "Node D" c10Rpc).syncCur = 0 ∧
    (sampleNode c1Env "Node D" c10Rpc).syncHi = 0 ∧
    (sampleNode c1Env "Node D" c10Rpc).effHead = 0 ∧
    (sampleNode c1Env "Node D" c10Rpc).target = 0 ∧
    (sampleNode c1Env "Node D" c10Rpc).pct = 0 ∧
    (sampleNode c1Env "Node D" c10Rpc).block = some 7 ∧
    (sampleNode c1Env "Node D" c10Rpc).label = .down :=
  C10_other_syncing_value_marks_down c1Env "Node D" c10Rpc (by decide) (.pyInt 7) rfl 7 rfl 0 rfl
    rfl

/-- C7: for every up node with no fixed target whose `eth_syncing` is a
structured object with `currentBlock`/`highestBlock`:
`effective_head = max(height, currentBlock)`,
`target = max(highestBlock, effective_head)`,
`percent = effective_head / target * 100` when the target is positive else
0, and `remaining = max(0, target - effective_head)`. -/
theorem C7_syncing_progress (env : SampleEnv) (name : String) (rpc : NodeRpc)
    (hgate : ¬ (pyStrip name = "Geth v1.11.6".toList ∧ env.seedDoneExists = false))
    (hft : fixedTarget env name = none)
    (bv : PyVal) (hbv : rpc.blockNumber = some bv) (h : Int) (hh : hex_to_int bv = .ok h)
    (pc : Int) (hpc : hex_to_int (optVal rpc.peerCount) = .ok pc)
    (cv hv : PyVal) (hsync : rpc.syncing = .dict cv hv)
    (c : Int) (hc : hex_to_int cv = .ok c) (hi : Int) (hhi : hex_to_int hv = .ok hi) :
    (sampleNode env name rpc).effHead = max h c ∧
    (sampleNode env name rpc).target = max hi (max h c) ∧
    (sampleNode env name rpc).pct =
      (if 0 < max hi (max h c) then ((max h c : ℚ) * 100) / ((max hi (max h c) : ℚ)) else 0) ∧
    (sampleNode env name rpc).remaining = max 0 (max hi (max h c) - max h c) := by
  unfold sampleNode
  rw [if_neg hgate, hbv]
  dsimp only
  rw [hh]
  dsimp only
  rw [hpc]
  dsimp only
  rw [hsync]
  dsimp only
  rw [hc]
  dsimp only
  rw [hhi]
  dsimp only
  unfold syncingSample
  rw [hft]
  simp

/-- Witness for C7: the spec's scenario — height 40,
`eth_syncing = {currentBlock: 50, highestBlock: 200}`, no fixed target —
gives `effective_head = 50`, `target = 200`, `percent = 25`. -/
theorem C7_syncing_progress_witness :
    (sampleNode c7Env "Node A" c7Rpc).effHead = 50 ∧
    (sampleNode c7Env "Node A" c7Rpc).target = 200 ∧
    (sampleNode c7Env "Node A" c7Rpc).pct = 25 := by
  have h := C7_syncing_progress c7Env "Node A" c7Rpc (by decide) (by decide)
    (.pyInt 40) rfl 40 rfl 0 rfl (.pyInt 50) (.pyInt 200) rfl 50 rfl 200 rfl
  refine ⟨h.1.trans (by decide), h.2.1.trans (by decide), ?_⟩
  rw [h.2.2.1]
  norm_num [max_def]

/-- C1 (amended): on a required-probe failure the per-node handler always
emits all-zero progress fields (effective head, target, percent,
remaining, sync cursors) with the plain `"down"` annotation, whether or
not a prior round sampled the node successfully; only the block-height and
peer-count gauges are left unwritten (so the metrics sink retains their
previous values).  No "(cached)" re-emission of progress fields exists. -/
theorem C1_probe_failure_zeroes (env : SampleEnv) (name : String) (rpc : NodeRpc)
    (hgate : ¬ (pyStrip name = "Geth v1.11.6".toList ∧ env.seedDoneExists = false))
    (hfail : rpc.blockNumber = none) :
    (sampleNode env name rpc).up = false ∧
    (sampleNode env name rpc).effHead = 0 ∧
    (sampleNode env name rpc).target = 0 ∧
    (sampleNode env name rpc).pct = 0 ∧
    (sampleNode env name rpc).remaining = 0 ∧
    (sampleNode env name rpc).syncCur = 0 ∧
    (sampleNode env name rpc).syncHi = 0 ∧
    (sampleNode env name rpc).label = .down ∧
    (sampleNode env name rpc).block = none ∧
    (sampleNode env name rpc).peers = none := by
  unfold sampleNode
  rw [if_neg hgate, hfail]
  simp [failSample]

/-- Witness for C1: the theorem applied at a concrete failed probe. -/
theorem C1_probe_failure_zeroes_witness :
    (sampleNode c1Env "Node B" c1Round2).up = false ∧
    (sampleNode c1Env "Node B" c1Round2).effHead = 0 ∧
    (sampleNode c1Env "Node B" c1Round2).target = 0 ∧
    (sampleNode c1Env "Node B" c1Round2).pct = 0 ∧
    (sampleNode c1Env "Node B" c1Round2).remaining = 0 ∧
    (sampleNode c1Env "Node B" c1Round2).syncCur = 0 ∧
    (sampleNode c1Env "Node B" c1Round2).syncHi = 0 ∧
    (sampleNode c1Env "Node B" c1Round2).label = .down ∧
    (sampleNode c1Env "Node B" c1Round2).block = none ∧
    (sampleNode c1Env "Node B" c1Round2).peers = none :=
  C1_probe_failure_zeroes c1Env "Node B" c1Round2 (by decide) rfl

/-- C1 counterexample: round 1 samples node `"Node A"` successfully with
effective head 100, target 100, percent 100; in round 2 the height probe
fails, and the handler emits zero effective head / target / percent with
the plain `"down"` label — not round 1's stored values with a
`"(cached)"` annotation as the claim demands. -/
theorem C1_counterexample :
    (sampleNode c1Env "Node A" c1Round1).up = true ∧
    (sampleNode c1Env "Node A" c1Round1).effHead = 100 ∧
    (sampleNode c1Env "Node A" c1Round1).target = 100 ∧
    (sampleNode c1Env "Node A" c1Round1).pct = 100 ∧
    (sampleNode c1Env "Node A" c1Round2).up = false ∧
    (sampleNode c1Env "Node A" c1Round2).effHead = 0 ∧
    (sampleNode c1Env "Node A" c1Round2).target = 0 ∧
    (sampleNode c1Env "Node A" c1Round2).pct = 0 ∧
    (sampleNode c1Env "Node A" c1Round2).label = .down ∧
    (sampleNode c1Env "Node A" c1Round2).effHead ≠ (sampleNode c1Env "Node A" c1Round1).effHead := by
  refine ⟨rfl, rfl, rfl, ?_, rfl, rfl, rfl, rfl, rfl, by decide⟩
  show ((100 : Int) : ℚ) * 100 / ((100 : Int) : ℚ) = 100
  norm_num

/-- C2 counterexample: with no export artifact on disk at all but a stale
v1.11.6 import marker, stage 04 (v1.16.7 export) derives `NOT_STARTED`
while stage 05 (v1.11.6 import) derives `IN_PROGRESS` — the claimed
downstream-before-upstream invariant fails for this export/import pair. -/
theorem C2_counterexample :
    (roundStages c2Cfg c2Ri { lastTotal := none, lastIncTs := none } 0).s04 = 0 ∧
    (roundStages c2Cfg c2Ri { lastTotal := none, lastIncTs := none } 0).s05 = 1 :=
  ⟨rfl, rfl⟩

/-- C2 (amended): the downstream-before-upstream guard exists only for the
v1.9.25-export / v1.3.6-import pair (stages 09/10), and even there only
outside the seed-done short-circuit: whenever the v1.3.6 seed-done marker
and the node-head-at-cutoff corroboration do not both hold, stage 09 being
`NOT_STARTED` forces stage 10 to `NOT_STARTED`.  The v1.16.7/v1.11.6 pair
has no such guard (see the counterexample). -/
theorem C2_downstream_guard (cfg : Cfg) (ri : RoundIn)
    (hnd : ¬ (ri.fs.v136SeedDone = true ∧ (cfg.cutoff : Int) ≤ v136NodeHead cfg ri))
    (h9 : stage09 cfg ri.fs = 0) : stage10 cfg ri = 0 := by
  unfold stage09 at h9
  unfold stage10
  by_cases hleg : legacyEnabled cfg = false
  · rw [if_pos hleg]
  · rw [if_neg hleg] at h9 ⊢
    have hdone : v136ExportDoneB ri.fs = false := by
      by_contra hcon
      rw [Bool.not_eq_false] at hcon
      rw [if_pos hcon] at h9
      exact absurd h9 (by decide)
    rw [if_neg (by rw [hdone]; decide)] at h9
    have hde : v136DoneEffective cfg ri = false := by
      unfold v136DoneEffective
      rw [Bool.and_eq_false_iff]
      by_contra hcon
      push_neg at hcon
      exact hnd ⟨Bool.ne_false_iff.mp hcon.1, by simpa using hcon.2⟩
    rw [if_neg (by rw [hde]; decide)]
    have hstart : v136ExportStarted ri.fs = false := by
      unfold v136ExportStarted
      rw [hdone]
      unfold stage09Fallback at h9
      split at h9
      · split at h9 <;> exact absurd h9 (by decide)
      · rename_i heq
        split at h9
        · exact absurd h9 (by decide)
        · rename_i hm
          have hm2 : ri.fs.v136ExportMarker = false := Bool.eq_false_iff.mpr hm
          simp [hm2, heq]
    rw [if_pos hstart]

/-- Witness for C2 (amended): an empty disk with the legacy chain enabled
— stage 09 is `NOT_STARTED` and the theorem forces stage 10 to
`NOT_STARTED`. -/
theorem C2_downstream_guard_witness :
    ¬ (emptyFs.v136SeedDone = true ∧ ((c3Cfg.cutoff : Int) ≤ v136NodeHead c3Cfg c2bRi)) ∧
    stage09 c3Cfg emptyFs = 0 ∧ stage10 c3Cfg c2bRi = 0 :=
  ⟨by decide, by decide, C2_downstream_guard c3Cfg c2bRi (by decide) (by decide)⟩

/-- C3 counterexample: a done-marker exists for the v1.16.7 export step and
the nominal output file is 1 KB (far below the 16 MB minimum), yet stage
04 derives `DONE` — that stage trusts its done marker unconditionally and
never consults the file size, refuting the claim's "for every export
stage". -/
theorem C3_counterexample :
    c3Fs.exportDone = true ∧ c3Fs.exportFile = some 1024 ∧ 1024 < minExportBytes ∧
      stage04 1919999 c3Fs = 2 := by decide

/-- C3 (amended): the 16 MB file-size corroboration applies to the v1.9.25
export stage (09) and, unless the downstream v1.9.25 import done-marker
exists, to the v1.10.0 export stage (07): with an implausibly small (or
absent) output file, stage 09 equals its marker/progress-derived fallback
regardless of the done marker (and cannot be `DONE` unless the progress
file records a `last_done`), and stage 07 cannot be `DONE`.  The v1.16.7
export stage (04) has no size check (see the counterexample). -/
theorem C3_small_file_falls_back (cfg : Cfg) (fs : Fs) :
    (v136ExportFileOk fs = false →
      stage09 cfg fs = (if legacyEnabled cfg = false then 0 else stage09Fallback cfg.cutoff fs) ∧
      ((v136ExportLastDone fs).isSome = false → stage09 cfg fs ≠ 2)) ∧
    (v110ExportFileOk fs = false → fs.v925ImportDone = false → stage07 cfg fs ≠ 2) := by
  constructor
  · intro hsmall
    have hdone : v136ExportDoneB fs = false := by simp [v136ExportDoneB, hsmall]
    have hmain : stage09 cfg fs =
        (if legacyEnabled cfg = false then 0 else stage09Fallback cfg.cutoff fs) := by
      unfold stage09
      by_cases hleg : legacyEnabled cfg = false
      · rw [if_pos hleg, if_pos hleg]
      · rw [if_neg hleg, if_neg hleg, if_neg (by rw [hdone]; decide)]
    refine ⟨hmain, fun hnolast => ?_⟩
    rw [hmain]
    by_cases hleg : legacyEnabled cfg = false
    · rw [if_pos hleg]; decide
    · rw [if_neg hleg]
      unfold stage09Fallback
      have hn : v136ExportLastDone fs = none :=
        Option.not_isSome_iff_eq_none.mp (by simp [hnolast])
      rw [hn]
      dsimp only
      split <;> simp
  · intro hsmall h925
    unfold stage07
    have hdone : v110ExportDoneB fs = false := by simp [v110ExportDoneB, hsmall, h925]
    by_cases hleg : legacyEnabled cfg = false
    · rw [if_pos hleg]; decide
    · rw [if_neg hleg, if_neg (by rw [hdone]; decide)]
      split <;> simp

/-- Witness for C3 (amended): done markers with 1 KB output files — stage
09 falls back to `NOT_STARTED` and stage 07 is not `DONE`. -/
theorem C3_small_file_falls_back_witness :
    v136ExportFileOk c3bFs = false ∧
    stage09 c3Cfg c3bFs = 0 ∧ stage09 c3Cfg c3bFs ≠ 2 ∧ stage07 c3Cfg c3bFs ≠ 2 := by
  have h := C3_small_file_falls_back c3Cfg c3bFs
  have h1 := (h.1 (by decide)).1
  have h2 := (h.1 (by decide)).2 (by decide)
  have h3 := h.2 (by decide) (by decide)
  exact ⟨by decide, by rw [h1]; decide, h2, h3⟩

/-- C9: when no legacy/bridge node name appears in the configured list,
every legacy stage (06–11) is `NOT_STARTED` and every legacy phase row
reports zero progress, `up = false` and not running — regardless of
leftover marker/log/progress files from a prior run. -/
theorem C9_legacy_disabled (cfg : Cfg) (ri : RoundIn)
    (hleg : legacyEnabled cfg = false) :
    stage06 cfg ri = 0 ∧ stage07 cfg ri.fs = 0 ∧ stage08 cfg ri = 0 ∧ stage09 cfg ri.fs = 0 ∧
    stage10 cfg ri = 0 ∧ stage11 cfg ri = 0 ∧
    (v110Row cfg ri.fs).current = 0 ∧ (v110Row cfg ri.fs).pct = 0 ∧
    (v110Row cfg ri.fs).up = false ∧ (v110Row cfg ri.fs).running = false ∧
    (v925Row cfg ri.fs).current = 0 ∧ (v925Row cfg ri.fs).pct = 0 ∧
    (v925Row cfg ri.fs).up = false ∧ (v925Row cfg ri.fs).running = false ∧
    (v136ExportRow cfg ri.fs).current = 0 ∧ (v136ExportRow cfg ri.fs).pct = 0 ∧
    (v136ExportRow cfg ri.fs).up = false ∧ (v136ExportRow cfg ri.fs).running = false ∧
    (v136ImportRow cfg ri).current = 0 ∧ (v136ImportRow cfg ri).pct = 0 ∧
    (v136ImportRow cfg ri).up = false ∧ (v136ImportRow cfg ri).running = false := by
  simp [stage06, stage07, stage08, stage09, stage10, stage11, v110Row, v925Row,
    v136ExportRow, v136ImportRow, emitPhaseRow, hleg]

/-- Witness for C9: legacy disabled while every legacy artifact is stale on
disk — all legacy stages and rows still come out zeroed. -/
theorem C9_legacy_disabled_witness :
    legacyEnabled c9Cfg = false ∧
    stage06 c9Cfg c9Ri = 0 ∧ stage07 c9Cfg c9Fs = 0 ∧ stage08 c9Cfg c9Ri = 0 ∧
    stage09 c9Cfg c9Fs = 0 ∧ stage10 c9Cfg c9Ri = 0 ∧ stage11 c9Cfg c9Ri = 0 ∧
    (v110Row c9Cfg c9Fs).current = 0 ∧ (v110Row c9Cfg c9Fs).up = false ∧
    (v925Row c9Cfg c9Fs).current = 0 ∧ (v925Row c9Cfg c9Fs).up = false ∧
    (v136ExportRow c9Cfg c9Fs).current = 0 ∧ (v136ExportRow c9Cfg c9Fs).up = false ∧
    (v136ImportRow c9Cfg c9Ri).current = 0 ∧ (v136ImportRow c9Cfg c9Ri).up = false ∧
    (v136ImportRow c9Cfg c9Ri).pct = 0 := by
  have h := C9_legacy_disabled c9Cfg c9Ri (by decide)
  exact ⟨by decide, h.1, h.2.1, h.2.2.1, h.2.2.2.1, h.2.2.2.2.1, h.2.2.2.2.2.1,
    h.2.2.2.2.2.2.1, h.2.2.2.2.2.2.2.2.1, h.2.2.2.2.2.2.2.2.2.2.1,
    h.2.2.2.2.2.2.2.2.2.2.2.2.1, h.2.2.2.2.2.2.2.2.2.2.2.2.2.2.1,
    h.2.2.2.2.2.2.2.2.2.2.2.2.2.2.2.2.1, h.2.2.2.2.2.2.2.2.2.2.2.2.2.2.2.2.2.2.1,
    h.2.2.2.2.2.2.2.2.2.2.2.2.2.2.2.2.2.2.2.2.1,
    h.2.2.2.2.2.2.2.2.2.2.2.2.2.2.2.2.2.2.2.1⟩

/-- The worker gauge is parsed with the broken patterns, so it is `None`
every round. -/
lemma lighthouseBackfillWorkers_eq_none (cfg : Cfg) (ri : RoundIn) :
    lighthouseBackfillWorkers cfg ri = none := by
  unfold lighthouseBackfillWorkers
  split
  · split
    · exact parse_prom_number_eq_none _ _ _
    · rfl
  · rfl

/-- The backfill counter is parsed with the broken patterns, so it is
`None` every round. -/
lemma backfillTotal_eq_none (cfg : Cfg) (ri : RoundIn) : backfillTotal cfg ri = none := by
  unfold backfillTotal
  split
  · split
    · exact parse_prom_number_eq_none _ _ _
    · rfl
  · rfl

/-- With the backfill counter always `None`, the poller state never
changes. -/
lemma stepState_eq_self (cfg : Cfg) (ri : RoundIn) (s : PState) (now : ℚ) :
    stepState cfg ri s now = s := by
  unfold stepState
  rw [backfillTotal_eq_none]

/-- With the worker gauge always `None`, stage 02 depends only on the
beacon-API data — not on the poller state or the wall clock. -/
lemma stage02_time_free (cfg : Cfg) (ri : RoundIn) (s : PState) (now : ℚ) :
    stage02 cfg ri s now =
      (if lhUp cfg ri = false then 0
       else if lhIsSyncing cfg ri = true ∨ 0 < lhDistance cfg ri then 1 else 2) := by
  unfold stage02
  rw [lighthouseBackfillWorkers_eq_none]

/-- C4: two consecutive rounds observing identical upstream data (RPC
responses, beacon-API response, metrics text, file-system state) derive
identical stage statuses for every stage and identical values for every
phase row, for any starting poller state and any two wall-clock times. -/
theorem C4_round_idempotent (cfg : Cfg) (ri : RoundIn) (s : PState) (t1 t2 : ℚ) :
    roundOut cfg ri (stepState cfg ri s t1) t2 = roundOut cfg ri s t1 := by
  rw [stepState_eq_self]
  unfold roundOut roundStages
  rw [stage02_time_free, stage02_time_free]

end ExporterModel
